import Mathlib

/-!
Verification development for the PredictPesa request-processing pipeline.

Shallow embedding of:
- `predictpesa/core/redis.py` (`RedisCache`, `RateLimiter`),
- `predictpesa/middleware/auth.py` (`AuthMiddleware`),
- `predictpesa/middleware/rate_limit.py` (`RateLimitMiddleware`),
- `predictpesa/api/v1/endpoints/auth.py` (`logout_user`),
- `predictpesa/api/deps.py` (`get_current_user`),
- `predictpesa/main.py` (`create_application`, middleware registration).

The remote key-value store (Redis) is modelled as an association list from
keys to entries carrying a value and an optional TTL.  Transport failures are
modelled by a boolean `err` flag threaded into each operation: when `err` is
`true` the underlying store call raises, and the surrounding `try`/`except`
of the Python source takes its error branch.
-/

namespace PredictPesa

/-- Values storable in the key-value store.  The Python code serializes to
JSON; the claims only ever store counters (via INCR), the boolean blacklist
marker, and the cached user dictionary, so the value type is the sum of
those shapes. -/
inductive CVal where
  | num (n : Int)
  | flag (b : Bool)
  | user (uid : String) (email : Option String) (role : String) (verified : Bool)
  | str (s : String)
deriving DecidableEq, Repr

/-- One stored entry: a value together with its remaining TTL (none = no
expiry set). -/
structure Entry where
  val : CVal
  ttl : Option Nat
deriving DecidableEq, Repr

/-- The key-value store state: an association list keyed by the raw wire-level
key string. -/
def Store := List (String × Entry)

instance : DecidableEq Store := inferInstanceAs (DecidableEq (List (String × Entry)))

/-- Look up the entry stored at a key. -/
def Store.lookupKey : Store → String → Option Entry
  | [], _ => none
  | (k, e) :: rest, key => if k = key then some e else Store.lookupKey rest key

/-- Set the entry at a key, replacing any previous entry (Redis SET / INCR
creation). -/
def Store.setKey : Store → String → Entry → Store
  | [], key, e => [(key, e)]
  | (k, e0) :: rest, key, e =>
      if k = key then (key, e) :: rest else (k, e0) :: Store.setKey rest key e

/-- Remove a key (Redis DEL). -/
def Store.eraseKey : Store → String → Store
  | [], _ => []
  | (k, e) :: rest, key =>
      if k = key then Store.eraseKey rest key else (k, e) :: Store.eraseKey rest key

/-- Redis INCRBY with amount 1: a missing key is created at 1 with no TTL; an
integer-valued key is incremented, keeping its TTL; a key holding a
non-integer value makes the command raise (`none`). -/
def Store.incrKey (st : Store) (key : String) : Option (Store × Int) :=
  match st.lookupKey key with
  | none => some (st.setKey key ⟨.num 1, none⟩, 1)
  | some e =>
      match e.val with
      | .num n => some (st.setKey key ⟨.num (n + 1), e.ttl⟩, n + 1)
      | _ => none

/-- Redis EXPIRE: sets the TTL of an existing key and returns `true`; returns
`false` when the key does not exist. -/
def Store.expireKey (st : Store) (key : String) (seconds : Nat) : Store × Bool :=
  match st.lookupKey key with
  | none => (st, false)
  | some e => (st.setKey key ⟨e.val, some seconds⟩, true)

/-- Namespace used by `RedisCache.__init__` (default argument
`prefix = "predictpesa"`; the global `cache` instance is built with it). -/
def cacheNS : String := "predictpesa"

/-- `RedisCache._make_key`: `f"{self.prefix}:{key}"`. -/
def make_key (key : String) : String := cacheNS ++ ":" ++ key

/-- `RedisCache.get`: read and deserialize; any error yields `None`. -/
def cache_get (err : Bool) (st : Store) (key : String) : Option CVal :=
  if err then none
  else
    match st.lookupKey (make_key key) with
    | some e => some e.val
    | none => none

/-- `RedisCache.set`: serialize and SET with optional expiry; returns `false`
instead of raising on error.  Result: (new store, success flag). -/
def cache_set (err : Bool) (st : Store) (key : String) (v : CVal) (ex : Option Nat) :
    Store × Bool :=
  if err then (st, false)
  else (st.setKey (make_key key) ⟨v, ex⟩, true)

/-- `RedisCache.delete`: DEL under the prefixed key; `false` on error. -/
def cache_delete (err : Bool) (st : Store) (key : String) : Store × Bool :=
  if err then (st, false)
  else (st.eraseKey (make_key key), true)

/-- `RedisCache.exists`: EXISTS under the prefixed key; `false` on error. -/
def cache_exists (err : Bool) (st : Store) (key : String) : Bool :=
  if err then false
  else (st.lookupKey (make_key key)).isSome

/-- `RedisCache.increment`: INCRBY under the prefixed key; `None` on error. -/
def cache_increment (err : Bool) (st : Store) (key : String) : Option (Store × Int) :=
  if err then none
  else st.incrKey (make_key key)

/-- `RedisCache.expire`: EXPIRE under the prefixed key; `false` on error. -/
def cache_expire (err : Bool) (st : Store) (key : String) (seconds : Nat) : Store × Bool :=
  if err then (st, false)
  else st.expireKey (make_key key) seconds

/-- `RateLimiter.is_allowed`: pipelines `INCR key` and `EXPIRE key window`
directly on the Redis client — note the raw `key`, NOT `make_key key`; the
rate limiter does not go through the cache facade.  On any error the
`except` branch fails open with `(True, limit)`.  Returns
(new store, allowed, remaining). -/
def is_allowed (err : Bool) (st : Store) (key : String) (limit window : Nat) :
    Store × Bool × Int :=
  if err then (st, true, (limit : Int))
  else
    match st.incrKey key with
    | none => (st, true, (limit : Int))
    | some (st1, n) =>
        let st2 := (st1.expireKey key window).1
        if n ≤ (limit : Int) then (st2, true, (limit : Int) - n)
        else (st2, false, 0)

/-! ## Python string primitives

The middleware uses `str.startswith`, the `in` substring test, `str.lower`,
`str.split` and `str.strip`.  They are modelled structurally on the
character list of the string so that concrete instances evaluate. -/

/-- Is the first list a prefix of the second (`str.startswith`)? -/
def charsStart : List Char → List Char → Bool
  | [], _ => true
  | _ :: _, [] => false
  | c :: cs, d :: ds => c = d && charsStart cs ds

/-- `s.startswith(pre)`. -/
def strStartsWith (s pre : String) : Bool := charsStart pre.data s.data

/-- Does `pat` occur as a contiguous sublist of `l`? -/
def charsContains : List Char → List Char → Bool
  | [], pat => pat.isEmpty
  | l@(_ :: rest), pat => charsStart pat l || charsContains rest pat

/-- Python `pat in s`. -/
def strContains (s pat : String) : Bool := charsContains s.data pat.data

/-- ASCII lower-casing of one character (`str.lower` on the ASCII header
values involved). -/
def lowerChar (c : Char) : Char :=
  if 'A' ≤ c ∧ c ≤ 'Z' then Char.ofNat (c.toNat + 32) else c

/-- `s.lower()`. -/
def strLower (s : String) : String := ⟨s.data.map lowerChar⟩

/-- Whitespace for `str.strip`. -/
def isSpaceChar (c : Char) : Bool := c = ' ' || c = '\t' || c = '\n' || c = '\r'

/-- `s.strip()`. -/
def pyStrip (s : String) : String :=
  ⟨((s.data.dropWhile isSpaceChar).reverse.dropWhile isSpaceChar).reverse⟩

/-- The characters before the first comma (`s.split(",")[0]`). -/
def takeUntilComma : List Char → List Char
  | [] => []
  | c :: cs => if c = ',' then [] else c :: takeUntilComma cs

/-! ## JWT tokens and the authentication middleware (`middleware/auth.py`) -/

/-- The claims carried by a JWT payload that the code reads: `sub`, `exp`,
`email`, `role`, `is_verified`. -/
structure Payload where
  sub : Option String
  exp : Option Nat
  email : Option String
  role : Option String
  verified : Option Bool
deriving DecidableEq, Repr

/-- A presented bearer token: its exact wire string `raw` (the blacklist is
keyed by it) and the abstraction of `jwt.decode` under the configured secret
and algorithm: whether the signature verifies, and the decoded payload. -/
structure Token where
  raw : String
  sigValid : Bool
  payload : Payload
deriving DecidableEq, Repr

/-- `jwt.decode(token, secret, algorithms=[alg])`: raises
`InvalidTokenError` on a bad signature or malformed token, and
`ExpiredSignatureError` when an `exp` claim is before `now` (we model the
boundary as: expired iff `exp < now`); an absent `exp` is not required by
default.  Both exceptions map to `none`. -/
def jwt_decode (now : Nat) (t : Token) : Option Payload :=
  if t.sigValid then
    match t.payload.exp with
    | some e => if e < now then none else some t.payload
    | none => some t.payload
  else none

/-- The user dictionary that `_validate_token` produces (either from the
identity cache or synthesized from token claims). -/
structure UserData where
  user_id : String
  email : Option String
  role : String
  verified : Bool
deriving DecidableEq, Repr

/-- Coerce a user dictionary to a cacheable value. -/
def UserData.toCVal (u : UserData) : CVal := .user u.user_id u.email u.role u.verified

/-- `AuthMiddleware._validate_token`: blacklist existence check on
`blacklist:<token>` first, then signature/expiry via `jwt.decode`, then the
`sub` claim (Python falsiness: absent or empty string rejects), then the
`exp`-presence check (absent or zero rejects), then the identity cache at
`user:<sub>` with a trust-the-token fallback written back with TTL 300.
Returns (new store, resolved user or `none`). -/
def validate_token (now : Nat) (err : Bool) (st : Store) (t : Token) :
    Store × Option UserData :=
  if cache_exists err st ("blacklist:" ++ t.raw) then (st, none)
  else
    match jwt_decode now t with
    | none => (st, none)
    | some p =>
        match p.sub with
        | none => (st, none)
        | some uid =>
            if uid = "" then (st, none)
            else if p.exp = none ∨ p.exp = some 0 then (st, none)
            else
              match cache_get err st ("user:" ++ uid) with
              | some (.user u e r v) => (st, some ⟨u, e, r, v⟩)
              | _ =>
                  let u : UserData := ⟨uid, p.email, p.role.getD "user", p.verified.getD false⟩
                  ((cache_set err st ("user:" ++ uid) u.toCVal (some 300)).1, some u)

/-- `AuthMiddleware.EXEMPT_PATHS`. -/
def exempt_paths_list : List String :=
  ["/", "/health", "/health/detailed", "/metrics", "/docs", "/redoc", "/openapi.json",
   "/api/v1/auth/register", "/api/v1/auth/login", "/api/v1/markets/"]

/-- `AuthMiddleware._is_exempt_path`: exact membership in `EXEMPT_PATHS`, or a
match of one of the `exempt_patterns` (the single pattern
`"/api/v1/markets/"`, tested with `str.startswith`).  The method is not
consulted. -/
def is_exempt_path (p : String) : Bool :=
  exempt_paths_list.contains p || strStartsWith p "/api/v1/markets/"

/-- `AuthMiddleware._requires_auth`: every `/api/v1/` route requires auth. -/
def requires_auth (p : String) : Bool := strStartsWith p "/api/v1/"

/-- The `Authorization` header as the middleware sees it: absent, malformed
(no space, so `split(" ", 1)` raises `ValueError`), or a scheme plus a
token. -/
inductive AuthHeader where
  | malformed
  | schemeToken (scheme : String) (tok : Token)
deriving DecidableEq, Repr

/-- HTTP method, restricted to the verbs the pipeline distinguishes. -/
inductive Method where
  | GET | POST | PUT | DELETE
deriving DecidableEq, Repr

/-- An inbound request, reduced to the fields the pipeline reads. -/
structure Request where
  method : Method
  path : String
  authHeader : Option AuthHeader
  xForwardedFor : Option String
  xRealIP : Option String
  clientHost : Option String
deriving DecidableEq, Repr

/-- `AuthMiddleware._extract_token`: `None` when the header is absent or
malformed or the scheme is not (case-insensitively) `bearer`. -/
def extract_token (h : Option AuthHeader) : Option Token :=
  match h with
  | none => none
  | some .malformed => none
  | some (.schemeToken s t) => if strLower s = "bearer" then some t else none

/-- The value built by `AuthMiddleware._unauthorized_response` /
`HTTPException`: status code, detail message, extra headers. -/
structure Resp where
  status : Nat
  detail : String
  headers : List (String × String)
deriving DecidableEq, Repr

/-- `AuthMiddleware._unauthorized_response()`: one fixed 401 value used for
every authentication failure. -/
def unauthorized_response : Resp :=
  ⟨401, "Invalid or missing authentication token", [("WWW-Authenticate", "Bearer")]⟩

/-- Outcome of `AuthMiddleware.dispatch`: either the 401 rejection, or
`call_next` with `request.state.user` set to the resolved identity (or left
unset). -/
inductive AuthResult where
  | reject (r : Resp)
  | next (user : Option UserData)
deriving DecidableEq, Repr

/-- `AuthMiddleware.dispatch`: exempt paths skip straight to `call_next`
without touching the token; otherwise a presented token is validated (any
failure rejects), and a missing token rejects exactly when the path requires
auth. -/
def auth_dispatch (now : Nat) (err : Bool) (st : Store) (req : Request) :
    Store × AuthResult :=
  if is_exempt_path req.path then (st, .next none)
  else
    match extract_token req.authHeader with
    | some t =>
        match validate_token now err st t with
        | (st1, some u) => (st1, .next (some u))
        | (st1, none) => (st1, .reject unauthorized_response)
    | none =>
        if requires_auth req.path then (st, .reject unauthorized_response)
        else (st, .next none)

/-- `logout_user` (`api/v1/endpoints/auth.py`): writes the blacklist marker
for the exact presented token string with TTL = the configured access-token
lifetime in seconds, then deletes the cached identity.  Both writes go
through the cache facade (so both keys are namespaced). -/
def logout_user (err : Bool) (st : Store) (raw uid : String) (ttlSeconds : Nat) : Store :=
  let st1 := (cache_set err st ("blacklist:" ++ raw) (.flag true) (some ttlSeconds)).1
  (cache_delete err st1 ("user:" ++ uid)).1

/-- `get_current_user` (`api/deps.py`): reads `request.state.user`; raises
401 "Authentication required" when unset, 401 "Invalid user data" when the
`user_id` field is falsy, else returns the user. -/
def get_current_user (stateUser : Option UserData) : Except Resp UserData :=
  match stateUser with
  | none => .error ⟨401, "Authentication required", []⟩
  | some u =>
      if u.user_id = "" then .error ⟨401, "Invalid user data", []⟩
      else .ok u

/-! ## Rate-limit middleware (`middleware/rate_limit.py`) -/

/-- `RateLimitMiddleware._is_exempt_path`: the literal set in the method
body. -/
def rl_exempt_list : List String := ["/health", "/health/detailed", "/metrics"]

/-- Exemption from rate limiting is exact path membership. -/
def rl_is_exempt (p : String) : Bool := rl_exempt_list.contains p

/-- `RateLimitMiddleware._get_client_ip`: first IP of `X-Forwarded-For`
(stripped), else `X-Real-IP`, else the direct peer address, else
`"unknown"`.  Python truthiness: an empty header value falls through. -/
def get_client_ip (req : Request) : String :=
  let fwd := req.xForwardedFor.getD ""
  if fwd ≠ "" then pyStrip ⟨takeUntilComma fwd.data⟩
  else
    let rip := req.xRealIP.getD ""
    if rip ≠ "" then rip
    else
      match req.clientHost with
      | some h => h
      | none => "unknown"

/-- `RateLimitMiddleware._get_client_id`: `user:<user_id>` when
`request.state.user_id` is set (and truthy), else `ip:<client_ip>`. -/
def get_client_id (req : Request) (stateUserId : Option String) : String :=
  match stateUserId with
  | some uid => if uid = "" then "ip:" ++ get_client_ip req else "user:" ++ uid
  | none => "ip:" ++ get_client_ip req

/-- `RateLimitMiddleware._get_limits_for_path`: the per-route policy table,
evaluated in source order; `rpm` is `self.requests_per_minute`.  Returns
(limit, window seconds). -/
def get_limits_for_path (rpm : Nat) (p : String) (m : Method) : Nat × Nat :=
  match m with
  | .POST | .PUT | .DELETE =>
      if strContains p "/markets/create" then (5, 60)
      else if strContains p "/stakes/create" then (10, 60)
      else if strContains p "/auth/" then (5, 60)
      else (rpm / 2, 60)
  | .GET =>
      if strContains p "/markets/" then (rpm * 2, 60)
      else (rpm, 60)

/-- Default of `settings.rate_limit_requests_per_minute` (`core/config.py`). -/
def default_rpm : Nat := 100

/-- The three rate-limit headers added to admitted responses: note the Limit
header reports `self.requests_per_minute`, not the per-route limit. -/
def rate_limit_headers (rpm : Nat) (remaining : Int) : List (String × String) :=
  [("X-RateLimit-Limit", toString rpm),
   ("X-RateLimit-Remaining", toString remaining),
   ("X-RateLimit-Reset", "60")]

/-- The 429 `HTTPException` raised on rejection. -/
def too_many_response (rpm : Nat) : Resp :=
  ⟨429, "Rate limit exceeded. Please try again later.",
   [("X-RateLimit-Limit", toString rpm),
    ("X-RateLimit-Remaining", "0"),
    ("X-RateLimit-Reset", "60")]⟩

/-- A downstream (handler) response: status and headers. -/
structure HttpResponse where
  status : Nat
  headers : List (String × String)
deriving DecidableEq, Repr

/-- Outcome of `RateLimitMiddleware.dispatch`: the 429 rejection, or the
downstream response with the rate-limit headers appended. -/
inductive RlResult where
  | reject (r : Resp)
  | pass (r : HttpResponse)
deriving DecidableEq, Repr

/-- `RateLimitMiddleware.dispatch` (with `_check_rate_limit` inlined): exempt
paths pass straight through; otherwise the per-route limit is looked up, the
counter at `rate_limit:<client_id>:<path>` is consulted via
`RateLimiter.is_allowed`, and the request is rejected with 429 or passed
with the three `X-RateLimit-*` headers added.  (`_check_rate_limit`'s own
`except` is a second fail-open layer; `is_allowed` is total so it is
unreachable.)  `down` is the response produced by `call_next`. -/
def rl_dispatch (rpm : Nat) (err : Bool) (st : Store) (req : Request)
    (stateUserId : Option String) (down : HttpResponse) : Store × RlResult :=
  if rl_is_exempt req.path then (st, .pass down)
  else
    let cid := get_client_id req stateUserId
    let lw := get_limits_for_path rpm req.path req.method
    let key := "rate_limit:" ++ cid ++ ":" ++ req.path
    match is_allowed err st key lw.1 lw.2 with
    | (st1, allowed, remaining) =>
        if allowed then
          (st1, .pass ⟨down.status, down.headers ++ rate_limit_headers rpm remaining⟩)
        else (st1, .reject (too_many_response rpm))

/-! ## Middleware registration order (`main.py: create_application`) -/

/-- The middleware classes registered by `create_application`. -/
inductive Mw where
  | cors | trustedHost | requestID | rateLimit | auth | metrics
deriving DecidableEq, Repr

/-- Starlette `app.add_middleware`: inserts at position 0 of the user
middleware list; the stack is built outermost-first from that list, so the
middleware added LAST is outermost and runs FIRST on a request. -/
def add_middleware (stack : List Mw) (m : Mw) : List Mw := m :: stack

/-- The `add_middleware` call sequence of `create_application`, in source
order: CORS, TrustedHost (production only), RequestID, RateLimit, Auth,
Metrics (when Prometheus is enabled).  The resulting list is in execution
order, outermost (first to run) first. -/
def app_user_middleware (isProduction prometheusEnabled : Bool) : List Mw :=
  let s : List Mw := []
  let s := add_middleware s .cors
  let s := if isProduction then add_middleware s .trustedHost else s
  let s := add_middleware s .requestID
  let s := add_middleware s .rateLimit
  let s := add_middleware s .auth
  if prometheusEnabled then add_middleware s .metrics else s

/-- Execution order restricted to the three pipeline stages of the claim. -/
def pipeline_stage_order (isProduction prometheusEnabled : Bool) : List Mw :=
  (app_user_middleware isProduction prometheusEnabled).filter
    (fun m => m == .requestID || m == .rateLimit || m == .auth)

/-- The composition of the two rejecting pipeline stages in their actual
execution order (auth runs before rate limiting — see the middleware-order
development): auth either rejects or forwards with `request.state.user`
set; the rate limiter then keys by the resolved identity or the client IP.
The request-ID stage neither rejects nor reads the store, so it is omitted
here. -/
def pipeline (now rpm : Nat) (err : Bool) (st : Store) (req : Request)
    (down : HttpResponse) : Store × RlResult :=
  match auth_dispatch now err st req with
  | (st1, .reject r) => (st1, .reject r)
  | (st1, .next u) =>
      rl_dispatch rpm err st1 req (u.map (fun x => x.user_id)) down

/-! ## Market routes (`api/v1/endpoints/markets.py`), mounted at `/api/v1/markets` -/

/-- A declared route: method, path pattern relative to the router mount, and
whether the handler declares the `Depends(get_current_user)` dependency. -/
structure ApiRoute where
  method : Method
  pattern : String
  requiresUser : Bool
deriving DecidableEq, Repr

/-- The routes declared in `api/v1/endpoints/markets.py`, in source order;
`requiresUser` records which handlers take
`current_user: User = Depends(get_current_user)`. -/
def markets_routes : List ApiRoute :=
  [⟨.POST, "/create", true⟩,
   ⟨.GET, "/", false⟩,
   ⟨.GET, "/{market_id}", false⟩,
   ⟨.PUT, "/{market_id}", true⟩,
   ⟨.DELETE, "/{market_id}", true⟩,
   ⟨.GET, "/{market_id}/stats", false⟩,
   ⟨.POST, "/{market_id}/resolve", true⟩,
   ⟨.GET, "/trending/", false⟩,
   ⟨.GET, "/featured/", false⟩]

/-! ## Concrete fixtures used by individual claims -/

/-- One rate-limiter call with limit 5, window 60, on a fixed fresh key. -/
def rlCall (st : Store) : Store × Bool × Int :=
  is_allowed false st "rate_limit:ip:203.0.113.5:/api/v1/stakes/create" 5 60

/-- The store after `n` successive such calls, starting empty. -/
def rlSeq : Nat → Store
  | 0 => []
  | n + 1 => (rlCall (rlSeq n)).1

/-- A store holding a rate-limit counter mid-window: count 1, 30 seconds of
TTL left. -/
def c6_store : Store := [("rl", ⟨CVal.num 1, some 30⟩)]

/-- A rate-limit key as built by `RateLimitMiddleware._check_rate_limit`. -/
def c8_key : String := "rate_limit:ip:203.0.113.5:/api/v1/stakes"

/-- A structurally valid, correctly signed token expiring at time 1000. -/
def c1_token : Token :=
  ⟨"tok1", true, ⟨some "alice", some 1000, some "alice@example.com", some "user", some true⟩⟩

/-- A store holding a blacklist entry for `c1_token` (as written through the
cache facade, hence namespaced). -/
def c1_store : Store := [(make_key "blacklist:tok1", ⟨CVal.flag true, some 600⟩)]

/-- A protected-route request presenting `c1_token`. -/
def c1_req : Request :=
  ⟨.GET, "/api/v1/users/me", some (.schemeToken "Bearer" c1_token), none, none, none⟩

/-- An unauthenticated GET to the public market listing path. -/
def c3_get_req : Request := ⟨.GET, "/api/v1/markets/", none, none, none, none⟩

/-- An unauthenticated mutating request under the `/markets/` route. -/
def c3_put_req : Request := ⟨.PUT, "/api/v1/markets/42", none, none, none, none⟩

/-- Protected-path request with no Authorization header. -/
def c7_req_missing : Request := ⟨.GET, "/api/v1/users/me", none, none, none, none⟩

/-- A token whose signature does not verify. -/
def c7_token_badsig : Token := ⟨"tokbad", false, ⟨some "bob", some 1000, none, none, none⟩⟩

/-- A correctly signed token whose expiry claim is in the past. -/
def c7_token_expired : Token := ⟨"tokexp", true, ⟨some "bob", some 10, none, none, none⟩⟩

/-- A correctly signed, unexpired token. -/
def c7_token_ok : Token := ⟨"tokok", true, ⟨some "bob", some 1000, none, none, none⟩⟩

/-- Request presenting the bad-signature token. -/
def c7_req_badsig : Request :=
  ⟨.GET, "/api/v1/users/me", some (.schemeToken "Bearer" c7_token_badsig), none, none, none⟩

/-- Request presenting the expired token. -/
def c7_req_expired : Request :=
  ⟨.GET, "/api/v1/users/me", some (.schemeToken "Bearer" c7_token_expired), none, none, none⟩

/-- Request presenting the blacklisted (but otherwise valid) token. -/
def c7_req_blacklisted : Request :=
  ⟨.GET, "/api/v1/users/me", some (.schemeToken "Bearer" c7_token_ok), none, none, none⟩

/-- Store blacklisting `c7_token_ok`. -/
def c7_store : Store := [(make_key "blacklist:tokok", ⟨CVal.flag true, some 600⟩)]

/-- A health-check request with an arbitrary header set. -/
def c9_req : Request := ⟨.GET, "/health", some .malformed, some "1.2.3.4", none, none⟩

/-- A market-creation request from an unauthenticated client. -/
def c10_req : Request := ⟨.POST, "/api/v1/markets/create", none, none, none, some "203.0.113.5"⟩

/-- A downstream handler response. -/
def c10_down : HttpResponse := ⟨200, []⟩

/-! ## Store lemmas -/

theorem lookup_setKey_self (st : Store) (k : String) (e : Entry) :
    (st.setKey k e).lookupKey k = some e := by
  induction st with
  | nil => simp [Store.setKey, Store.lookupKey]
  | cons p rest ih =>
      obtain ⟨k0, e0⟩ := p
      by_cases h : k0 = k
      · subst h; simp [Store.setKey, Store.lookupKey]
      · simp [Store.setKey, Store.lookupKey, h, ih]

theorem lookup_setKey_ne (st : Store) (k k' : String) (e : Entry) (h : k' ≠ k) :
    (st.setKey k e).lookupKey k' = st.lookupKey k' := by
  induction st with
  | nil =>
      simp [Store.setKey, Store.lookupKey]
      exact Ne.symm h
  | cons p rest ih =>
      obtain ⟨k0, e0⟩ := p
      by_cases h0 : k0 = k
      · subst h0
        simp [Store.setKey, Store.lookupKey, h, Ne.symm h]
      · simp [Store.setKey, Store.lookupKey, h0, ih]

theorem lookup_eraseKey_ne (st : Store) (k k' : String) (h : k' ≠ k) :
    (st.eraseKey k).lookupKey k' = st.lookupKey k' := by
  induction st with
  | nil => simp [Store.eraseKey, Store.lookupKey]
  | cons p rest ih =>
      obtain ⟨k0, e0⟩ := p
      by_cases h0 : k0 = k
      · subst h0
        simp [Store.eraseKey, Store.lookupKey, Ne.symm h, ih]
      · simp [Store.eraseKey, Store.lookupKey, h0, ih]

/-- After a successful increment the key is present, holding the new count
and the previous TTL. -/
theorem incrKey_lookup (st st1 : Store) (key : String) (n : Int)
    (h : st.incrKey key = some (st1, n)) :
    ∃ t, st1.lookupKey key = some ⟨.num n, t⟩ := by
  unfold Store.incrKey at h
  cases hl : st.lookupKey key with
  | none =>
      rw [hl] at h
      simp at h
      obtain ⟨h1, h2⟩ := h
      subst h1; subst h2
      exact ⟨none, lookup_setKey_self st key _⟩
  | some e =>
      rw [hl] at h
      obtain ⟨v, t⟩ := e
      cases v with
      | num m =>
          simp at h
          obtain ⟨h1, h2⟩ := h
          subst h1; subst h2
          exact ⟨t, lookup_setKey_self st key _⟩
      | flag b => simp at h
      | user a b c d => simp at h
      | str s => simp at h

/-- After EXPIRE on a present key, the key holds the same value with the new
TTL. -/
theorem expireKey_lookup (st : Store) (key : String) (e : Entry) (w : Nat)
    (h : st.lookupKey key = some e) :
    ((st.expireKey key w).1).lookupKey key = some ⟨e.val, some w⟩ := by
  unfold Store.expireKey
  rw [h]
  exact lookup_setKey_self st key _

/-- Identity-cache keys and blacklist keys never collide: they differ from
character 12 on (`user:` vs `blacklist:` after the namespace). -/
theorem userKey_ne_blacklistKey (x y : String) :
    make_key ("user:" ++ x) ≠ make_key ("blacklist:" ++ y) := by
  intro h
  unfold make_key cacheNS at h
  cases x with
  | mk xd =>
      cases y with
      | mk yd =>
          have hd : ("predictpesa:user:".data ++ xd) = ("predictpesa:blacklist:".data ++ yd) :=
            congrArg String.data h
          have h12 := congrArg (fun l => l[12]?) hd
          simp only [List.getElem?_append] at h12
          have hu : (12 : Nat) < "predictpesa:user:".data.length := by decide
          have hb : (12 : Nat) < "predictpesa:blacklist:".data.length := by decide
          rw [if_pos hu, if_pos hb] at h12
          exact absurd h12 (by decide)

/-- After `logout_user`, the blacklist entry for the logged-out token is
present: the subsequent identity-cache deletion touches a different key. -/
theorem logout_blacklist_present (st : Store) (raw uid : String) (ttl : Nat) :
    cache_exists false (logout_user false st raw uid ttl) ("blacklist:" ++ raw) = true := by
  have hne : make_key ("blacklist:" ++ raw) ≠ make_key ("user:" ++ uid) :=
    fun h => userKey_ne_blacklistKey uid raw h.symm
  simp [logout_user, cache_exists, cache_set, cache_delete,
        lookup_eraseKey_ne _ _ _ hne, lookup_setKey_self]

/-! ## Claim C2: middleware execution order -/

/-- Claim C2 counterexample: in the application built by
`create_application` (non-production, Prometheus disabled shown here), the
three pipeline stages do NOT execute as request-ID first, rate limiting
second, authentication last: the actual execution order is authentication,
then rate limiting, then request-ID assignment, because Starlette's
`add_middleware` makes the last-added middleware the outermost. -/
theorem c2_counterexample :
    pipeline_stage_order false false = [Mw.auth, Mw.rateLimit, Mw.requestID] ∧
    pipeline_stage_order false false ≠ [Mw.requestID, Mw.rateLimit, Mw.auth] := by
  decide

/-- Claim C2 amended: for every configuration (production or not, Prometheus
enabled or not), the three pipeline stages execute in the order
authentication first, rate limiting second, request-ID assignment last. -/
theorem c2_execution_order (isProduction prometheusEnabled : Bool) :
    pipeline_stage_order isProduction prometheusEnabled =
      [Mw.auth, Mw.rateLimit, Mw.requestID] := by
  cases isProduction <;> cases prometheusEnabled <;> decide

/-! ## Claim C4: rate-limit admit/reject formula -/

/-- Claim C4: for every error-free `is_allowed` call whose atomic increment
yields count `n`, the result is `allowed = (n ≤ limit)` and
`remaining = max 0 (limit - n)`; and with limit 5 on a fresh key, five
successive calls are allowed with remaining 4, 3, 2, 1, 0 and the sixth is
rejected. -/
theorem c4_rate_limit_formula :
    (∀ (st st1 : Store) (key : String) (limit window : Nat) (n : Int),
        st.incrKey key = some (st1, n) →
        (is_allowed false st key limit window).2.1 = decide (n ≤ (limit : Int)) ∧
        (is_allowed false st key limit window).2.2 = max 0 ((limit : Int) - n)) ∧
    ((rlCall (rlSeq 0)).2 = (true, 4) ∧ (rlCall (rlSeq 1)).2 = (true, 3) ∧
     (rlCall (rlSeq 2)).2 = (true, 2) ∧ (rlCall (rlSeq 3)).2 = (true, 1) ∧
     (rlCall (rlSeq 4)).2 = (true, 0) ∧ (rlCall (rlSeq 5)).2 = (false, 0)) := by
  constructor
  · intro st st1 key limit window n h
    simp only [is_allowed, h, Bool.false_eq_true, if_false]
    by_cases hn : n ≤ (limit : Int)
    · simp only [hn, if_true, decide_eq_true hn]
      constructor
      · rfl
      · omega
    · simp only [hn, if_false]
      constructor
      · simp [hn]
      · omega
  · decide

/-- Claim C4 witness: the general formula instantiated on the empty store
(increment yields count 1) with limit 5. -/
theorem c4_witness :
    (is_allowed false ([] : Store) "k" 5 60).2.1 = decide ((1 : Int) ≤ (5 : Int)) ∧
    (is_allowed false ([] : Store) "k" 5 60).2.2 = max 0 ((5 : Int) - 1) :=
  c4_rate_limit_formula.1 [] (Store.setKey [] "k" ⟨CVal.num 1, none⟩) "k" 5 60 1 (by decide)

/-! ## Claim C5: fail-open rate limiting -/

/-- Claim C5: when the underlying store operation fails, `is_allowed` returns
`(allowed = true, remaining = limit)` with the store untouched (and, being a
total function, never raises); consequently the rate-limit middleware never
rejects a request while the store is unreachable. -/
theorem c5_fail_open :
    (∀ (st : Store) (key : String) (limit window : Nat),
        is_allowed true st key limit window = (st, true, (limit : Int))) ∧
    (∀ (rpm : Nat) (st : Store) (req : Request) (uid : Option String)
        (down : HttpResponse) (r : Resp),
        (rl_dispatch rpm true st req uid down).2 ≠ RlResult.reject r) := by
  constructor
  · intro st key limit window; rfl
  · intro rpm st req uid down r
    unfold rl_dispatch
    by_cases he : rl_is_exempt req.path = true
    · simp [he]
    · simp [he, is_allowed]

/-! ## Claim C6: TTL only set on the creating increment -/

/-- Claim C6 counterexample: on a store already holding the counter at 1 with
30 seconds of TTL left, a subsequent error-free call with window 60 does not
leave the TTL unchanged: it resets it to 60. -/
theorem c6_counterexample :
    (c6_store.lookupKey "rl").map Entry.ttl = some (some 30) ∧
    ((is_allowed false c6_store "rl" 5 60).1.lookupKey "rl").map Entry.ttl =
      some (some 60) ∧
    ¬(((is_allowed false c6_store "rl" 5 60).1.lookupKey "rl").map Entry.ttl =
      some (some 30)) := by
  decide

/-- Claim C6 amended: on every error-free `is_allowed` call whose increment
succeeds — the creating one and every subsequent one alike — the counter's
TTL is set to `window`. -/
theorem c6_ttl_reset (st st1 : Store) (key : String) (limit window : Nat) (n : Int)
    (h : st.incrKey key = some (st1, n)) :
    ((is_allowed false st key limit window).1.lookupKey key).map Entry.ttl =
      some (some window) := by
  obtain ⟨t, ht⟩ := incrKey_lookup st st1 key n h
  have hex := expireKey_lookup st1 key ⟨CVal.num n, t⟩ window ht
  simp only [is_allowed, h, Bool.false_eq_true, if_false]
  by_cases hn : n ≤ (limit : Int)
  · simp [hn, hex]
  · simp [hn, hex]

/-- Claim C6 amended, witness: a second call in the same window (counter at
1, TTL 30) resets the TTL to the full window 60. -/
theorem c6_ttl_reset_witness :
    ((is_allowed false c6_store "rl" 5 60).1.lookupKey "rl").map Entry.ttl =
      some (some 60) :=
  c6_ttl_reset c6_store (Store.setKey c6_store "rl" ⟨CVal.num 2, some 30⟩) "rl" 5 60 2
    (by decide)

/-! ## Claim C8: key namespacing -/

/-- Claim C8 counterexample: an error-free rate-limiter call on the empty
store writes its counter under the raw key `rate_limit:...`, not under the
namespaced key `predictpesa:rate_limit:...` — the rate limiter bypasses the
cache facade's namespacing. -/
theorem c8_counterexample :
    (is_allowed false [] c8_key 5 60).1.lookupKey c8_key =
      some ⟨CVal.num 1, some 60⟩ ∧
    (is_allowed false [] c8_key 5 60).1.lookupKey (make_key c8_key) = none := by
  decide

/-- Claim C8 amended: keys that pass through the cache facade — identity
cache (`user:<id>`) and blacklist (`blacklist:<token>`) keys among them —
are transparently namespaced by `_make_key`, but the rate limiter's
`rate_limit:<client>:<path>` keys reach the store unmodified. -/
theorem c8_namespacing :
    (∀ (st : Store) (k : String) (v : CVal) (ex : Option Nat),
        (cache_set false st k v ex).1 = st.setKey (make_key k) ⟨v, ex⟩) ∧
    (∀ (st : Store) (k : String),
        cache_exists false st k = (st.lookupKey (make_key k)).isSome) ∧
    (∀ (st : Store) (k : String),
        (cache_delete false st k).1 = st.eraseKey (make_key k)) ∧
    (∀ (k : String) (limit window : Nat),
        (is_allowed false [] k limit window).1 = [(k, ⟨CVal.num 1, some window⟩)]) := by
  refine ⟨fun st k v ex => rfl, fun st k => rfl, fun st k => rfl, fun k limit window => ?_⟩
  unfold is_allowed
  simp [Store.incrKey, Store.lookupKey, Store.setKey, Store.expireKey]
  split <;> rfl

/-! ## Claim C1: blacklist supremacy -/

/-- Claim C1: whenever a blacklist entry exists for a token, validation of
that token yields no identity and the pipeline rejects the request — even
for a correctly signed token with a future expiry, and in particular in any
state produced by `logout_user` for that token (logout immediately after a
successful validation included, since the state is universally
quantified). -/
theorem c1_blacklist_supremacy :
    (∀ (now : Nat) (st : Store) (t : Token) (e : Nat),
        cache_exists false st ("blacklist:" ++ t.raw) = true →
        t.sigValid = true → t.payload.exp = some e → now < e →
        validate_token now false st t = (st, none)) ∧
    (∀ (now : Nat) (st : Store) (t : Token) (req : Request),
        cache_exists false st ("blacklist:" ++ t.raw) = true →
        is_exempt_path req.path = false →
        req.authHeader = some (.schemeToken "Bearer" t) →
        auth_dispatch now false st req = (st, .reject unauthorized_response)) ∧
    (∀ (now : Nat) (st : Store) (t : Token) (uid : String) (ttl : Nat),
        validate_token now false (logout_user false st t.raw uid ttl) t =
          (logout_user false st t.raw uid ttl, none)) := by
  have hb : strLower "Bearer" = "bearer" := by decide
  refine ⟨?_, ?_, ?_⟩
  · intro now st t e hbl hsig hexp hlt
    simp [validate_token, hbl]
  · intro now st t req hbl hex hhdr
    simp [auth_dispatch, hex, hhdr, extract_token, hb, validate_token, hbl]
  · intro now st t uid ttl
    simp [validate_token, logout_blacklist_present st t.raw uid ttl]

/-- Claim C1 witness: the supremacy theorem applied to a concrete blacklisted
token, a concrete protected request, and a concrete logout-then-reuse run. -/
theorem c1_witness :
    validate_token 5 false c1_store c1_token = (c1_store, none) ∧
    auth_dispatch 5 false c1_store c1_req = (c1_store, .reject unauthorized_response) ∧
    validate_token 5 false (logout_user false [] "tok1" "alice" 600) c1_token =
      (logout_user false [] "tok1" "alice" 600, none) :=
  ⟨c1_blacklist_supremacy.1 5 c1_store c1_token 1000 (by decide) rfl rfl (by decide),
   c1_blacklist_supremacy.2.1 5 c1_store c1_token c1_req (by decide) (by decide) rfl,
   c1_blacklist_supremacy.2.2 5 [] c1_token "alice" 600⟩

/-! ## Claim C3: public market listing vs mutating market routes -/

/-- Claim C3: an unauthenticated GET to the public market listing path is
admitted by the auth middleware (never 401); every mutating (POST, PUT,
DELETE) route under the `/markets/` router declares the
`get_current_user` dependency; the auth middleware forwards every request
under the `/api/v1/markets/` prefix without attaching an identity; and the
dependency rejects an identity-less request with status 401 — so a mutating
request without a valid token is rejected with 401 (by the route
dependency). -/
theorem c3_public_listing_auth :
    (∀ (now : Nat) (err : Bool) (st : Store) (req : Request),
        req.method = .GET → req.path = "/api/v1/markets/" → req.authHeader = none →
        auth_dispatch now err st req = (st, .next none)) ∧
    (∀ r ∈ markets_routes,
        (r.method = .POST ∨ r.method = .PUT ∨ r.method = .DELETE) → r.requiresUser = true) ∧
    (∀ (now : Nat) (err : Bool) (st : Store) (req : Request),
        strStartsWith req.path "/api/v1/markets/" = true →
        auth_dispatch now err st req = (st, .next none)) ∧
    get_current_user none = .error ⟨401, "Authentication required", []⟩ := by
  refine ⟨?_, by decide, ?_, rfl⟩
  · intro now err st req hm hp hh
    have he : is_exempt_path req.path = true := by rw [hp]; decide
    simp [auth_dispatch, he]
  · intro now err st req hpre
    have he : is_exempt_path req.path = true := by
      unfold is_exempt_path
      rw [hpre]
      simp
    simp [auth_dispatch, he]

/-- Claim C3 witness: the public GET, a mutating route of the table, and an
unauthenticated PUT under the prefix. -/
theorem c3_witness :
    auth_dispatch 0 false [] c3_get_req = ([], .next none) ∧
    (⟨.PUT, "/{market_id}", true⟩ : ApiRoute).requiresUser = true ∧
    auth_dispatch 0 false [] c3_put_req = ([], .next none) :=
  ⟨c3_public_listing_auth.1 0 false [] c3_get_req rfl rfl rfl,
   c3_public_listing_auth.2.1 ⟨.PUT, "/{market_id}", true⟩ (by decide)
     (Or.inr (Or.inl rfl)),
   c3_public_listing_auth.2.2.1 0 false [] c3_put_req (by decide)⟩

/-! ## Claim C7: uniform 401 across all authentication failures -/

/-- Claim C7: the single rejection value carries status 401, a generic detail
that names no specific cause, and the `WWW-Authenticate: Bearer` header; and
each of the four failure causes — missing token on a protected path, bad
signature, expired token, blacklisted token — makes the middleware return
exactly that one value. -/
theorem c7_uniform_unauthorized :
    (unauthorized_response.status = 401 ∧
     unauthorized_response.detail = "Invalid or missing authentication token" ∧
     ("WWW-Authenticate", "Bearer") ∈ unauthorized_response.headers) ∧
    (∀ (now : Nat) (err : Bool) (st : Store) (req : Request),
        is_exempt_path req.path = false → requires_auth req.path = true →
        req.authHeader = none →
        auth_dispatch now err st req = (st, .reject unauthorized_response)) ∧
    (∀ (now : Nat) (st : Store) (t : Token) (req : Request),
        is_exempt_path req.path = false →
        req.authHeader = some (.schemeToken "Bearer" t) →
        st.lookupKey (make_key ("blacklist:" ++ t.raw)) = none →
        t.sigValid = false →
        auth_dispatch now false st req = (st, .reject unauthorized_response)) ∧
    (∀ (now : Nat) (st : Store) (t : Token) (req : Request) (e : Nat),
        is_exempt_path req.path = false →
        req.authHeader = some (.schemeToken "Bearer" t) →
        st.lookupKey (make_key ("blacklist:" ++ t.raw)) = none →
        t.sigValid = true → t.payload.exp = some e → e < now →
        auth_dispatch now false st req = (st, .reject unauthorized_response)) ∧
    (∀ (now : Nat) (st : Store) (t : Token) (req : Request),
        is_exempt_path req.path = false →
        req.authHeader = some (.schemeToken "Bearer" t) →
        cache_exists false st ("blacklist:" ++ t.raw) = true →
        auth_dispatch now false st req = (st, .reject unauthorized_response)) := by
  have hb : strLower "Bearer" = "bearer" := by decide
  refine ⟨⟨rfl, rfl, by decide⟩, ?_, ?_, ?_, ?_⟩
  · intro now err st req hex hreq hh
    simp [auth_dispatch, hex, hh, extract_token, hreq]
  · intro now st t req hex hh hbl hsig
    simp [auth_dispatch, hex, hh, extract_token, hb, validate_token, cache_exists,
          hbl, jwt_decode, hsig]
  · intro now st t req e hex hh hbl hsig hexp hlt
    simp [auth_dispatch, hex, hh, extract_token, hb, validate_token, cache_exists,
          hbl, jwt_decode, hsig, hexp, hlt]
  · intro now st t req hex hh hbl
    simp [auth_dispatch, hex, hh, extract_token, hb, validate_token, hbl]

/-- Claim C7 witness: all four causes at concrete inputs produce the same
401 value. -/
theorem c7_witness :
    auth_dispatch 100 false [] c7_req_missing = ([], .reject unauthorized_response) ∧
    auth_dispatch 100 false [] c7_req_badsig = ([], .reject unauthorized_response) ∧
    auth_dispatch 100 false [] c7_req_expired = ([], .reject unauthorized_response) ∧
    auth_dispatch 100 false c7_store c7_req_blacklisted =
      (c7_store, .reject unauthorized_response) :=
  ⟨c7_uniform_unauthorized.2.1 100 false [] c7_req_missing (by decide) (by decide) rfl,
   c7_uniform_unauthorized.2.2.1 100 [] c7_token_badsig c7_req_badsig
     (by decide) rfl (by decide) rfl,
   c7_uniform_unauthorized.2.2.2.1 100 [] c7_token_expired c7_req_expired 10
     (by decide) rfl (by decide) rfl rfl (by decide),
   c7_uniform_unauthorized.2.2.2.2 100 c7_store c7_token_ok c7_req_blacklisted
     (by decide) rfl (by decide)⟩

/-! ## Claim C9: exempt paths never see 401 or 429 -/

/-- Claim C9: for every request whose path is in the rate limiter's exempt
set (health checks and metrics, each of which is also auth-exempt), the
pipeline — auth and rate-limit stages composed in their actual execution
order — forwards the downstream response unchanged, for every header set,
store state, and error condition (hence regardless of volume): no 401 and
no 429 is ever produced. -/
theorem c9_exempt_bypass (now rpm : Nat) (err : Bool) (st : Store) (req : Request)
    (down : HttpResponse) (h : rl_is_exempt req.path = true) :
    pipeline now rpm err st req down = (st, .pass down) := by
  have hp : req.path = "/health" ∨ req.path = "/health/detailed" ∨ req.path = "/metrics" := by
    simpa [rl_is_exempt, rl_exempt_list] using h
  rcases hp with hp | hp | hp <;>
  · have he : is_exempt_path req.path = true := by rw [hp]; decide
    have hr : rl_is_exempt req.path = true := by rw [hp]; decide
    simp [pipeline, auth_dispatch, rl_dispatch, he, hr]

/-- Claim C9 witness: a `/health` request with stray headers passes through
untouched. -/
theorem c9_witness :
    pipeline 0 100 false [] c9_req ⟨200, []⟩ = ([], .pass ⟨200, []⟩) :=
  c9_exempt_bypass 0 100 false [] c9_req ⟨200, []⟩ (by decide)

/-! ## Claim C10: X-RateLimit-Limit reports the global default -/

/-- Claim C10: every admitted response leaving the rate-limit middleware
carries `X-RateLimit-Limit` equal to the middleware's global
requests-per-minute value, while the admit decision and the
`X-RateLimit-Remaining` value come from the per-route limit; for market
creation the per-route limit is 5 ≠ 100 (the configured default), so the
first admitted POST shows Limit "100" next to Remaining "4". -/
theorem c10_limit_header_mismatch :
    (∀ (rpm : Nat) (err : Bool) (st st1 : Store) (req : Request) (uid : Option String)
        (down resp : HttpResponse),
        rl_is_exempt req.path = false →
        rl_dispatch rpm err st req uid down = (st1, .pass resp) →
        ("X-RateLimit-Limit", toString rpm) ∈ resp.headers) ∧
    ((get_limits_for_path default_rpm "/api/v1/markets/create" .POST).1 = 5 ∧
      (5 : Nat) ≠ default_rpm) ∧
    (rl_dispatch default_rpm false [] c10_req none c10_down).2 =
      .pass ⟨200, [("X-RateLimit-Limit", "100"), ("X-RateLimit-Remaining", "4"),
                   ("X-RateLimit-Reset", "60")]⟩ := by
  refine ⟨?_, ⟨by decide, by decide⟩, by decide⟩
  intro rpm err st st1 req uid down resp hex hdisp
  unfold rl_dispatch at hdisp
  rw [hex] at hdisp
  simp only [Bool.false_eq_true, if_false] at hdisp
  rcases hia : is_allowed err st
      ("rate_limit:" ++ get_client_id req uid ++ ":" ++ req.path)
      (get_limits_for_path rpm req.path req.method).1
      (get_limits_for_path rpm req.path req.method).2 with ⟨st2, allowed, remaining⟩
  rw [hia] at hdisp
  cases allowed with
  | false => simp at hdisp
  | true =>
      simp at hdisp
      rw [← hdisp.2]
      simp [rate_limit_headers]

/-- Claim C10 witness: the general header conclusion applied to the concrete
market-creation run. -/
theorem c10_witness :
    ("X-RateLimit-Limit", toString default_rpm) ∈
      ([("X-RateLimit-Limit", "100"), ("X-RateLimit-Remaining", "4"),
        ("X-RateLimit-Reset", "60")] : List (String × String)) :=
  c10_limit_header_mismatch.1 default_rpm false []
    (is_allowed false [] ("rate_limit:" ++ get_client_id c10_req none ++ ":" ++ c10_req.path)
      5 60).1
    c10_req none c10_down
    ⟨200, [("X-RateLimit-Limit", "100"), ("X-RateLimit-Remaining", "4"),
           ("X-RateLimit-Reset", "60")]⟩
    (by decide) (by decide)

end PredictPesa
